import Mathlib

/-!
Verification of the fractal/driz repository: a shallow embedding of the
schema/type converter, the condition builder, the schema constructor and
the collection operations, with theorems settling the specification
claims about them.
-/

namespace Fractal

/-- The fixed logical-type enumeration: the keys of the
`_SQLEquivalentTypes` dictionary in `fractal/converter.py` (and the
identical `SQLEquivalentTypes` in `driz/converter.py`), in insertion
order.  `PyType.none` models the Python `None` key. -/
inductive PyType where
  | int
  | float
  | bool
  | str
  | bytes
  | datetime
  | date
  | time
  | timedelta
  | none
deriving DecidableEq, Repr

/-- `as_sql_type` from `fractal/converter.py`: dictionary lookup of the
storage-class string for a logical type.  Total on the enumeration; the
Python fallback `"UNKNOWN"` is unreachable for enumerated keys. -/
def as_sql_type : PyType → String
  | .int => "INTEGER"
  | .float => "REAL"
  | .bool => "BOOLEAN"
  | .str => "TEXT"
  | .bytes => "BLOB"
  | .datetime => "DATETIME"
  | .date => "DATE"
  | .time => "TIME"
  | .timedelta => "TIME"
  | .none => "NULL"

/-- `from_sql_type` from `fractal/converter.py`: iterates the dictionary
entries in insertion order and returns the first key whose storage-class
string matches; raises `ValueError` when none matches.  The `timedelta`
branch is unreachable because `time` maps to the same string `"TIME"`
and is visited first, exactly as in the Python iteration order. -/
def from_sql_type (sql_type : String) : Except String PyType :=
  if sql_type = "INTEGER" then .ok .int
  else if sql_type = "REAL" then .ok .float
  else if sql_type = "BOOLEAN" then .ok .bool
  else if sql_type = "TEXT" then .ok .str
  else if sql_type = "BLOB" then .ok .bytes
  else if sql_type = "DATETIME" then .ok .datetime
  else if sql_type = "DATE" then .ok .date
  else if sql_type = "TIME" then .ok .time
  else if sql_type = "TIME" then .ok .timedelta
  else if sql_type = "NULL" then .ok .none
  else .error ("Unknown SQL type: " ++ sql_type)

/-- Python's `sep.join(parts)`: the parts interleaved with the
separator. -/
def joinSep (sep : String) : List String → String
  | [] => ""
  | [a] => a
  | a :: b :: rest => a ++ sep ++ joinSep sep (b :: rest)

/-- SQL-bindable Python values, as they appear in bound parameter lists.
`Value.null` models Python `None`. -/
inductive Value where
  | int (n : Int)
  | str (s : String)
  | bool (b : Bool)
  | null
deriving DecidableEq, Repr

/-- `str(AsType(type(v)))` from `driz/converter.py`, i.e.
`SQLEquivalentTypes.get(type(v), "UNKNOWN")`.  For `v = None` the looked-up
key is `type(None) = NoneType`, which is not a key of the dictionary (the
dict's only null-related key is the `None` singleton itself), so the
fallback `"UNKNOWN"` is returned. -/
def Value.asTypeStr : Value → String
  | .int _ => as_sql_type PyType.int
  | .str _ => as_sql_type PyType.str
  | .bool _ => as_sql_type PyType.bool
  | .null => "UNKNOWN"

/-- Python `str(v)` rendering, used where `driz/query.py` interpolates a
value into an f-string. -/
def Value.render : Value → String
  | .int n => toString n
  | .str s => s
  | .bool b => if b then "True" else "False"
  | .null => "None"

/-- `Condition` from `fractal/query.py`: a field name, the SQL clause
fragment and the bound parameter values.  The builder methods below each
return a fresh `Condition` exactly as the source does. -/
structure Condition where
  field : String
  clause : String
  values : List Value
deriving DecidableEq, Repr

namespace Condition

/-- `Condition.__eq__`: `IS NULL` when compared with `None`, otherwise a
parameterized `= ?` comparison. -/
def eq (field : String) (other : Value) : Condition :=
  if other = .null then { field, clause := field ++ " IS NULL", values := [] }
  else { field, clause := field ++ " = ?", values := [other] }

/-- `Condition.__ne__` on a non-`None` argument (the `None` branch of the
source returns a bare `(clause, values)` tuple instead of a `Condition`;
its pair is `ne_null` below). -/
def ne (field : String) (other : Value) : Condition :=
  { field, clause := field ++ " != ?", values := [other] }

/-- The `(clause, values)` tuple returned by `Condition.__ne__` when the
argument is `None`. -/
def ne_null (field : String) : String × List Value :=
  (field ++ " IS NOT NULL", [])

/-- `Condition.__lt__`. -/
def lt (field : String) (other : Value) : Condition :=
  { field, clause := field ++ " < ?", values := [other] }

/-- `Condition.__le__`. -/
def le (field : String) (other : Value) : Condition :=
  { field, clause := field ++ " <= ?", values := [other] }

/-- `Condition.__gt__`. -/
def gt (field : String) (other : Value) : Condition :=
  { field, clause := field ++ " > ?", values := [other] }

/-- `Condition.__ge__`. -/
def ge (field : String) (other : Value) : Condition :=
  { field, clause := field ++ " >= ?", values := [other] }

/-- `Condition.startswith`: `LIKE ?` with the wildcard appended to the
bound parameter, never to the clause. -/
def startswith (field : String) (pre : String) : Condition :=
  { field, clause := field ++ " LIKE ?", values := [.str (pre ++ "%")] }

/-- `Condition.endswith`. -/
def endswith (field : String) (suf : String) : Condition :=
  { field, clause := field ++ " LIKE ?", values := [.str ("%" ++ suf)] }

/-- `Condition.substring`. -/
def substring (field : String) (inf : String) : Condition :=
  { field, clause := field ++ " LIKE ?", values := [.str ("%" ++ inf ++ "%")] }

/-- `Condition.anyof`: `IN` over one `?` placeholder per value. -/
def anyof (field : String) (vs : List Value) : Condition :=
  { field
    clause := field ++ " IN (" ++ joinSep ", " (List.replicate vs.length "?") ++ ")"
    values := vs }

/-- `Condition.noneof`: `NOT IN` over one `?` placeholder per value. -/
def noneof (field : String) (vs : List Value) : Condition :=
  { field
    clause := field ++ " NOT IN (" ++ joinSep ", " (List.replicate vs.length "?") ++ ")"
    values := vs }

/-- `Condition.between`. -/
def between (field : String) (start stop : Value) : Condition :=
  { field, clause := field ++ " BETWEEN ? AND ?", values := [start, stop] }

/-- `Condition.isnull`. -/
def isnull (field : String) : Condition :=
  { field, clause := field ++ " IS NULL", values := [] }

/-- `Condition.notnull`. -/
def notnull (field : String) : Condition :=
  { field, clause := field ++ " IS NOT NULL", values := [] }

/-- `Condition.__and__`: parenthesized conjunction of the two clauses and
concatenation of the two parameter lists. -/
def and (c1 c2 : Condition) : Condition :=
  { field := c1.field ++ "&" ++ c2.field
    clause := "(" ++ c1.clause ++ " AND " ++ c2.clause ++ ")"
    values := c1.values ++ c2.values }

/-- `Condition.__or__`: parenthesized disjunction of the two clauses and
concatenation of the two parameter lists. -/
def or (c1 c2 : Condition) : Condition :=
  { field := c1.field ++ "|" ++ c2.field
    clause := "(" ++ c1.clause ++ " OR " ++ c2.clause ++ ")"
    values := c1.values ++ c2.values }

end Condition

/-- A tree of conditions composed with `&` and `|`, used to show that any
composed tree collapses to one flat clause string and one flat parameter
list. -/
inductive CondTree where
  | leaf (c : Condition)
  | and (l r : CondTree)
  | or (l r : CondTree)
deriving DecidableEq, Repr

/-- Evaluate a composition tree with `Condition.and` / `Condition.or`,
exactly as Python's operator overloading does. -/
def CondTree.eval : CondTree → Condition
  | .leaf c => c
  | .and l r => Condition.and l.eval r.eval
  | .or l r => Condition.or l.eval r.eval

/-- The leaf conditions of a composition tree, left to right. -/
def CondTree.leaves : CondTree → List Condition
  | .leaf c => [c]
  | .and l r => l.leaves ++ r.leaves
  | .or l r => l.leaves ++ r.leaves

/-- `_Select` from `fractal/query.py`: the accumulated SELECT prefix and
the limit. -/
structure Select where
  sql : String
  limit : Nat
deriving DecidableEq, Repr

/-- `_Select.__init__`: builds the `SELECT [DISTINCT] cols FROM name`
prefix (the distinct branch leaves a trailing space before ` FROM`,
exactly as the source does). -/
def Select.init (fields : List String) (sourceName : String) (distinct : Bool)
    (limit : Nat) : Select :=
  let base :=
    if distinct then
      if fields.length > 0 then
        "SELECT DISTINCT" ++ " " ++ joinSep ", " fields ++ " "
      else "SELECT DISTINCT" ++ " * "
    else if fields.length > 0 then "SELECT " ++ joinSep ", " fields
    else "SELECT *"
  { sql := base ++ " FROM " ++ sourceName, limit }

/-- The `(sql, params)` pair that `_Select.where` passes to
`cursor.execute`: the SELECT prefix, ` WHERE `, the condition's clause,
an optional ` LIMIT n` suffix, and the condition's parameter list. -/
def Select.whereStmt (s : Select) (c : Condition) : String × List Value :=
  (s.sql ++ " WHERE " ++ c.clause ++
      (if s.limit ≠ 0 then " LIMIT " ++ toString s.limit else ""),
    c.values)

/-- Number of `?` placeholders in a SQL fragment. -/
def countQ (s : String) : Nat :=
  (s.data.filter (· = '?')).length

end Fractal

namespace Driz

open Fractal (Value joinSep)

/-- `driz/query.py` `contains`: interpolates the caller value directly
into the SQL text. -/
def contains (field : String) (value : String) : String :=
  field ++ " LIKE '%" ++ value ++ "%'"

/-- `driz/query.py` `startswith`. -/
def startswith (field : String) (pre : String) : String :=
  field ++ " LIKE '" ++ pre ++ "%'"

/-- `driz/query.py` `endswith`. -/
def endswith (field : String) (suf : String) : String :=
  field ++ " LIKE '%" ++ suf ++ "'"

/-- `driz/query.py` `equals`: numbers are interpolated bare, everything
else inside a quoted `LIKE` pattern. -/
def equals (field : String) (value : Value) : String :=
  match value with
  | .int n => field ++ " = " ++ toString n
  | v => field ++ " LIKE '" ++ v.render ++ "'"

/-- `driz/query.py` `anyof`: every value is interpolated quoted. -/
def anyof (field : String) (values : List Value) : String :=
  field ++ " IN (" ++
    joinSep ", " (values.map (fun v => "'" ++ v.render ++ "'")) ++ ")"

/-- `driz/query.py` `noneof`: strings are interpolated quoted, other
values bare. -/
def noneof (field : String) (values : List Value) : String :=
  let v := values.map (fun value =>
    match value with
    | .str s => "'" ++ s ++ "'"
    | w => w.render)
  field ++ " NOT IN (" ++ joinSep ", " v ++ ")"

/-- `driz/query.py` `between`: both bounds interpolated bare. -/
def between (field : String) (start stop : Int) : String :=
  field ++ " BETWEEN " ++ toString start ++ " AND " ++ toString stop

/-- `driz/query.py` `both`. -/
def both (c1 c2 : String) : String :=
  c1 ++ " AND " ++ c2

/-- `driz/query.py` `either`. -/
def either (c1 c2 : String) : String :=
  c1 ++ " OR " ++ c2

end Driz

namespace Fractal

/-- A schema field: name, storage-class string and accumulated DDL
constraint text, as stored by `Field.__init__`. -/
structure Field where
  name : String
  sql_type : String
  constraints : String
deriving DecidableEq, Repr

/-- `Field.__init__` from `fractal/schema.py`: accumulates the constraint
fragments in source order (the foreign-key branch appends
`ON DELETE CASCADE`). -/
def mkFieldFractal (name : String) (dtype : PyType) (nullable : Bool)
    (default : Option Value) (unique : Bool) (check : Option String)
    (refCollection refField : Option String) : Field :=
  let c := ""
  let c := if unique then c ++ "UNIQUE " else c
  let c := if !nullable && !unique then c ++ "NOT NULL " else c
  let c := match default with
    | some v => c ++ "DEFAULT " ++ v.render ++ " "
    | none => c
  let c := match check with
    | some chk => c ++ "CHECK (" ++ chk ++ ") "
    | none => c
  let c := match refCollection, refField with
    | some rc, some rf => c ++ "REFERENCES " ++ rc ++ "(" ++ rf ++ ") ON DELETE CASCADE "
    | _, _ => c
  { name, sql_type := as_sql_type dtype, constraints := c }

/-- `Field.__init__` from `driz/schema.py`: identical except the
foreign-key fragment has no `ON DELETE CASCADE`. -/
def mkFieldDriz (name : String) (dtype : PyType) (nullable : Bool)
    (default : Option Value) (unique : Bool) (check : Option String)
    (refCollection refField : Option String) : Field :=
  let c := ""
  let c := if unique then c ++ "UNIQUE " else c
  let c := if !nullable && !unique then c ++ "NOT NULL " else c
  let c := match default with
    | some v => c ++ "DEFAULT " ++ v.render ++ " "
    | none => c
  let c := match check with
    | some chk => c ++ "CHECK (" ++ chk ++ ") "
    | none => c
  let c := match refCollection, refField with
    | some rc, some rf => c ++ "REFERENCES " ++ rc ++ "(" ++ rf ++ ") "
    | _, _ => c
  { name, sql_type := as_sql_type dtype, constraints := c }

/-- Python dict assignment `d[k] = v`: overwrite in place when the key is
present, append otherwise. -/
def dictSet {α : Type} (d : List (String × α)) (k : String) (v : α) :
    List (String × α) :=
  if (d.lookup k).isSome then
    d.map (fun p => if p.1 = k then (k, v) else p)
  else d ++ [(k, v)]

/-- The implicit primary-key field: `Field("key", str)` with
`"PRIMARY KEY "` prepended to its constraints. -/
def primaryField : Field :=
  let f := mkFieldFractal "key" PyType.str true none false none none none
  { f with constraints := "PRIMARY KEY " ++ f.constraints }

/-- The implicit creation-timestamp field:
`Field("timestamp", datetime, nullable=False)`. -/
def timestampField : Field :=
  mkFieldFractal "timestamp" PyType.datetime false none false none none none

/-- `Schema.__init__` from `fractal/schema.py`: a name-keyed dict seeded
with the implicit `key` and `timestamp` fields, then `fields[f.name] = f`
for each user field. -/
def fractalSchemaInit (userFields : List Field) : List (String × Field) :=
  userFields.foldl (fun d f => dictSet d f.name f)
    [("key", primaryField), ("timestamp", timestampField)]

/-- `Schema.append` from `fractal/schema.py`. -/
def fractalSchemaAppend (fields : List (String × Field)) (newFields : List Field) :
    List (String × Field) :=
  newFields.foldl (fun d f => dictSet d f.name f) fields

/-- `Schema.__init__` from `driz/schema.py`: a plain list
`[primary, timestamp]` extended with the user fields. -/
def drizSchemaInit (userFields : List Field) : List Field :=
  let f := mkFieldDriz "key" PyType.str true none false none none none
  let primary := { f with constraints := "PRIMARY KEY " ++ f.constraints }
  let timestamp := mkFieldDriz "timestamp" PyType.datetime false none false none none none
  [primary, timestamp] ++ userFields

/-- `Schema.append` from `driz/schema.py`: `self.fields.extend(fields)`,
with no uniqueness check. -/
def drizSchemaAppend (fields newFields : List Field) : List Field :=
  fields ++ newFields

/-- Python exceptions raised by schema validation. -/
inductive PyError where
  | valueError (msg : String)
  | typeError (msg : String)
deriving DecidableEq, Repr

/-- A prepared statement: SQL text plus bound parameters. -/
structure Stmt where
  sql : String
  params : List Value
deriving DecidableEq, Repr

/-- An observable engine interaction. -/
inductive Effect where
  | execute (sql : String) (params : List Value)
  | commit
deriving DecidableEq, Repr

/-- The per-field validation loop of `Table.insert` in `driz/table.py`:
`ValueError` when a schema field is missing from the data, `TypeError`
when the supplied value's storage class differs from the field's. -/
def checkFields (data : List (String × Value)) : List Field → Except PyError Unit
  | [] => .ok ()
  | f :: rest =>
    match data.lookup f.name with
    | none => .error (.valueError ("Missing field: " ++ f.name))
    | some v =>
      if v.asTypeStr ≠ f.sql_type then
        .error (.typeError ("Incorrect type for field: " ++ f.name))
      else checkFields data rest

/-- The parameterized INSERT statement `Table.insert` executes once
validation has passed: one `?` placeholder per supplied value, the
values bound separately. -/
def insertStmt (name : String) (data : List (String × Value)) : Stmt :=
  { sql := "INSERT INTO " ++ name ++ " (" ++
      joinSep ", " (data.map (fun p => p.1)) ++
      ") VALUES (" ++ joinSep ", " (List.replicate data.length "?") ++ ")"
    params := data.map (fun p => p.2) }

/-- `Table.insert` from `driz/table.py`: length check, per-field
validation, then the parameterized INSERT statement it executes. -/
def tableInsert (name : String) (schemaFields : List Field)
    (data : List (String × Value)) : Except PyError Stmt :=
  if data.length ≠ schemaFields.length then
    .error (.valueError "Data length does not match schema fields length.")
  else
    match checkFields data schemaFields with
    | .error e => .error e
    | .ok () => .ok (insertStmt name data)

/-- One iteration of `Collection.insert` from `fractal/collection.py`:
sets `record["key"]` and `record["timestamp"]`, then executes a
parameterized INSERT built from the record's own keys.  No schema
validation of any kind is performed. -/
def fractalInsertOne (name : String) (uuidHex : String) (now : Value)
    (record : List (String × Value)) : Effect :=
  let r := dictSet (dictSet record "key" (.str uuidHex)) "timestamp" now
  .execute ("INSERT INTO " ++ name ++ " (" ++
      joinSep ", " (r.map (fun p => p.1)) ++
      ") VALUES (" ++ joinSep ", " (List.replicate r.length "?") ++ ")")
    (r.map (fun p => p.2))

/-- `Collection.insert` from `fractal/collection.py` as an effect trace:
one INSERT per record (each record paired with its generated uuid hex),
then a single commit. -/
def fractalInsert (name : String) (now : Value)
    (records : List (List (String × Value) × String)) : List Effect :=
  records.map (fun p => fractalInsertOne name p.2 now p.1) ++ [.commit]

/-- `Collection.drop` from `fractal/collection.py` (identical in
`driz/collection.py`): the returned flag and the engine interactions
performed. -/
def drop (name : String) (confirm : Bool) : Bool × List Effect :=
  if !confirm then (false, [])
  else (true, [.execute ("DROP TABLE IF EXISTS " ++ name) [], .commit])

/-- One application of a leaf predicate builder of
`fractal/query.py`, with its caller-supplied arguments. -/
inductive Leaf where
  | eq (v : Value)
  | ne (v : Value)
  | lt (v : Value)
  | le (v : Value)
  | gt (v : Value)
  | ge (v : Value)
  | startswith (p : String)
  | endswith (s : String)
  | substring (s : String)
  | anyof (vs : List Value)
  | noneof (vs : List Value)
  | between (a b : Value)
  | isnull
  | notnull
deriving DecidableEq, Repr

/-- Dispatch a leaf builder application to the corresponding
`Condition` method. -/
def Leaf.build (field : String) : Leaf → Condition
  | .eq v => Condition.eq field v
  | .ne v => Condition.ne field v
  | .lt v => Condition.lt field v
  | .le v => Condition.le field v
  | .gt v => Condition.gt field v
  | .ge v => Condition.ge field v
  | .startswith p => Condition.startswith field p
  | .endswith s => Condition.endswith field s
  | .substring s => Condition.substring field s
  | .anyof vs => Condition.anyof field vs
  | .noneof vs => Condition.noneof field vs
  | .between a b => Condition.between field a b
  | .isnull => Condition.isnull field
  | .notnull => Condition.notnull field

/-- The engine-visible state of one table: column names and rows. -/
structure TableState where
  columns : List String
  rows : List (List Value)
deriving DecidableEq, Repr

/-- The row returned by `SELECT * FROM name WHERE key = ?` followed by
`fetchone()`: the first row whose `key` column equals the given key. -/
def fetchRow (t : TableState) (key : String) : Option (List Value) :=
  t.rows.find? (fun r => r.get? (t.columns.indexOf "key") == some (.str key))

/-- `Collection.fetch` from `fractal/collection.py` (identical in
`driz/collection.py`): empty dict when `fetchone()` yields nothing,
otherwise `dict(zip(column names, row))`. -/
def fetch (t : TableState) (key : String) : List (String × Value) :=
  match fetchRow t key with
  | none => []
  | some row => t.columns.zip row

/-! Helper lemmas about placeholder counting. -/

theorem countQ_append (a b : String) : countQ (a ++ b) = countQ a + countQ b := by
  simp [countQ, String.data_append, List.filter_append]

theorem countQ_joinSep_replicate (n : Nat) :
    countQ (joinSep ", " (List.replicate n "?")) = n := by
  induction n with
  | zero => rfl
  | succ m ih =>
    cases m with
    | zero => rfl
    | succ k =>
      rw [List.replicate_succ, List.replicate_succ,
        show joinSep ", " ("?" :: "?" :: List.replicate k "?")
            = "?" ++ ", " ++ joinSep ", " ("?" :: List.replicate k "?") from rfl,
        ← List.replicate_succ, countQ_append, countQ_append, ih]
      have hq : countQ "?" = 1 := rfl
      have hc : countQ ", " = 0 := rfl
      omega

end Fractal

open Fractal

/-- C1: for every supported logical type `T`, `from_sql_type (as_sql_type T)`
returns `T` itself — except for `timedelta`, whose storage class `"TIME"`
is shared with `time` and is mapped back to `time` by the dictionary
iteration order.  Amended: the round trip is the identity for every
supported type other than `timedelta`. -/
theorem C1_schema_type_roundtrip (T : PyType) (h : T ≠ PyType.timedelta) :
    from_sql_type (as_sql_type T) = Except.ok T := by
  cases T <;> first | rfl | exact absurd rfl h

/-- C1 witness: the round trip at `int` under the amended hypothesis. -/
theorem C1_schema_type_roundtrip_witness :
    PyType.int ≠ PyType.timedelta ∧
    from_sql_type (as_sql_type PyType.int) = Except.ok PyType.int :=
  ⟨by decide, C1_schema_type_roundtrip PyType.int (by decide)⟩

/-- C1 counterexample: the round trip fails on `timedelta`, returning
`time` instead. -/
theorem C1_roundtrip_counterexample :
    from_sql_type (as_sql_type PyType.timedelta) = Except.ok PyType.time ∧
    Except.ok PyType.time ≠ (Except.ok PyType.timedelta : Except String PyType) := by
  refine ⟨rfl, ?_⟩
  simp

/-- C8: `as_sql_type` is a total function from the logical-type
enumeration into storage-class strings, and `from_sql_type` is its
partial inverse: on a string that is the storage class of some supported
type it returns a supported type with that storage class, and on every
unrecognized string it fails with the `ValueError` message. -/
theorem C8_converter_total_partial_inverse :
    (∀ T : PyType, ∃ U : PyType, from_sql_type (as_sql_type T) = Except.ok U ∧
        as_sql_type U = as_sql_type T) ∧
    (∀ s : String, (∀ T : PyType, as_sql_type T ≠ s) →
        from_sql_type s = Except.error ("Unknown SQL type: " ++ s)) := by
  constructor
  · intro T
    cases T with
    | int => exact ⟨.int, rfl, rfl⟩
    | float => exact ⟨.float, rfl, rfl⟩
    | bool => exact ⟨.bool, rfl, rfl⟩
    | str => exact ⟨.str, rfl, rfl⟩
    | bytes => exact ⟨.bytes, rfl, rfl⟩
    | datetime => exact ⟨.datetime, rfl, rfl⟩
    | date => exact ⟨.date, rfl, rfl⟩
    | time => exact ⟨.time, rfl, rfl⟩
    | timedelta => exact ⟨.time, rfl, rfl⟩
    | none => exact ⟨.none, rfl, rfl⟩
  · intro s h
    have h1 := h .int
    have h2 := h .float
    have h3 := h .bool
    have h4 := h .str
    have h5 := h .bytes
    have h6 := h .datetime
    have h7 := h .date
    have h8 := h .time
    have h10 := h .none
    simp only [as_sql_type] at h1 h2 h3 h4 h5 h6 h7 h8 h10
    unfold from_sql_type
    rw [if_neg (fun hh => h1 hh.symm), if_neg (fun hh => h2 hh.symm),
      if_neg (fun hh => h3 hh.symm), if_neg (fun hh => h4 hh.symm),
      if_neg (fun hh => h5 hh.symm), if_neg (fun hh => h6 hh.symm),
      if_neg (fun hh => h7 hh.symm), if_neg (fun hh => h8 hh.symm),
      if_neg (fun hh => h8 hh.symm), if_neg (fun hh => h10 hh.symm)]

/-- C8 witness: `"VARCHAR"` is no storage class, and `from_sql_type`
fails on it with the `ValueError` message. -/
theorem C8_converter_witness :
    (∀ T : PyType, as_sql_type T ≠ "VARCHAR") ∧
    from_sql_type "VARCHAR" = Except.error ("Unknown SQL type: " ++ "VARCHAR") :=
  ⟨by intro T; cases T <;> decide,
    C8_converter_total_partial_inverse.2 "VARCHAR" (by intro T; cases T <;> decide)⟩

/-- C2: composing two conditions with `&` yields exactly the clause
`(s1 AND s2)` and the parameter concatenation `v1 ++ v2` (and `|` yields
`(s1 OR s2)` with `v1 ++ v2`); any composed tree collapses to one flat
clause plus the flat left-to-right concatenation of the leaves'
parameter lists; and `where()` passes exactly the collapsed clause
(embedded after ` WHERE `) and the collapsed parameter list to the
engine. -/
theorem C2_condition_composition_flat :
    (∀ c1 c2 : Condition,
      (c1.and c2).clause = "(" ++ c1.clause ++ " AND " ++ c2.clause ++ ")" ∧
      (c1.and c2).values = c1.values ++ c2.values ∧
      (c1.or c2).clause = "(" ++ c1.clause ++ " OR " ++ c2.clause ++ ")" ∧
      (c1.or c2).values = c1.values ++ c2.values) ∧
    (∀ t : CondTree, (CondTree.eval t).values = (t.leaves.map Condition.values).flatten) ∧
    (∀ s : Select, ∀ c : Condition,
      s.whereStmt c =
        (s.sql ++ " WHERE " ++ c.clause ++
          (if s.limit ≠ 0 then " LIMIT " ++ toString s.limit else ""), c.values)) := by
  refine ⟨fun c1 c2 => ⟨rfl, rfl, rfl, rfl⟩, ?_, fun s c => rfl⟩
  intro t
  induction t with
  | leaf c => simp [CondTree.eval, CondTree.leaves]
  | and l r ihl ihr => simp [CondTree.eval, CondTree.leaves, Condition.and, ihl, ihr]
  | or l r ihl ihr => simp [CondTree.eval, CondTree.leaves, Condition.or, ihl, ihr]

/-- C4 counterexample: at three concrete equality conditions, the two
associations of `&` produce different clause strings (and hence
different Conditions), refuting associativity as stated. -/
theorem C4_assoc_counterexample :
    (((Condition.eq "a" (Value.int 1)).and (Condition.eq "b" (Value.int 2))).and
        (Condition.eq "c" (Value.int 3))).clause = "((a = ? AND b = ?) AND c = ?)" ∧
    ((Condition.eq "a" (Value.int 1)).and
        ((Condition.eq "b" (Value.int 2)).and (Condition.eq "c" (Value.int 3)))).clause
      = "(a = ? AND (b = ? AND c = ?))" ∧
    (((Condition.eq "a" (Value.int 1)).and (Condition.eq "b" (Value.int 2))).and
        (Condition.eq "c" (Value.int 3)) ≠
      (Condition.eq "a" (Value.int 1)).and
        ((Condition.eq "b" (Value.int 2)).and (Condition.eq "c" (Value.int 3)))) := by
  refine ⟨rfl, rfl, ?_⟩
  decide

/-- C4 amended: composition with `&` (and `|`) is associative on the
parameter lists, while the two associations' clause strings differ only
in the placement of the parentheses around the same three operand
clauses. -/
theorem C4_assoc_amended (a b c : Condition) :
    ((a.and b).and c).values = (a.and (b.and c)).values ∧
    ((a.or b).or c).values = (a.or (b.or c)).values ∧
    ((a.and b).and c).clause
      = "(" ++ "(" ++ a.clause ++ " AND " ++ b.clause ++ ")" ++ " AND " ++ c.clause ++ ")" ∧
    (a.and (b.and c)).clause
      = "(" ++ a.clause ++ " AND " ++ "(" ++ b.clause ++ " AND " ++ c.clause ++ ")" ++ ")" := by
  refine ⟨?_, ?_, ?_, ?_⟩
  · simp [Condition.and, List.append_assoc]
  · simp [Condition.or, List.append_assoc]
  · simp [Condition.and, ← String.append_assoc]
  · simp [Condition.and, ← String.append_assoc]

/-- C3 counterexample: the driz leaf builders interpolate the
caller-supplied value directly into the SQL text — `contains`, `equals`
and `between` produce fragments embedding the value with zero `?`
placeholders, and the fragment text varies with the value. -/
theorem C3_driz_interpolation_counterexample :
    Driz.contains "name" "bobby" = "name LIKE '%bobby%'" ∧
    countQ (Driz.contains "name" "bobby") = 0 ∧
    Driz.contains "name" "bobby" ≠ Driz.contains "name" "alice" ∧
    Driz.equals "age" (Value.int 30) = "age = 30" ∧
    countQ (Driz.equals "age" (Value.int 30)) = 0 ∧
    Driz.between "age" 18 30 = "age BETWEEN 18 AND 30" ∧
    countQ (Driz.between "age" 18 30) = 0 := by
  refine ⟨by decide, by decide, by decide, by decide, by decide, by decide, by decide⟩

/-- C3 amended: the fractal `Condition` leaf builders are properly
parameterized — every leaf fragment carries exactly one `?` placeholder
per bound value (so the placeholder count equals the parameter-list
length), and the fragment text is independent of the caller-supplied
values, which travel only in the parameter list. -/
theorem C3_fractal_parameterized (f : String) (hf : countQ f = 0) :
    (∀ l : Leaf, countQ (Leaf.build f l).clause = (Leaf.build f l).values.length) ∧
    (∀ v w : Value, v ≠ .null → w ≠ .null →
      (Condition.eq f v).clause = (Condition.eq f w).clause) ∧
    (∀ v w : Value, (Condition.ne f v).clause = (Condition.ne f w).clause) ∧
    (∀ v w : Value, (Condition.lt f v).clause = (Condition.lt f w).clause) ∧
    (∀ v w : Value, (Condition.le f v).clause = (Condition.le f w).clause) ∧
    (∀ v w : Value, (Condition.gt f v).clause = (Condition.gt f w).clause) ∧
    (∀ v w : Value, (Condition.ge f v).clause = (Condition.ge f w).clause) ∧
    (∀ p q : String, (Condition.startswith f p).clause = (Condition.startswith f q).clause) ∧
    (∀ p q : String, (Condition.endswith f p).clause = (Condition.endswith f q).clause) ∧
    (∀ p q : String, (Condition.substring f p).clause = (Condition.substring f q).clause) ∧
    (∀ vs ws : List Value, vs.length = ws.length →
      (Condition.anyof f vs).clause = (Condition.anyof f ws).clause) ∧
    (∀ vs ws : List Value, vs.length = ws.length →
      (Condition.noneof f vs).clause = (Condition.noneof f ws).clause) ∧
    (∀ v w v2 w2 : Value, (Condition.between f v w).clause = (Condition.between f v2 w2).clause) := by
  refine ⟨?_, ?_, fun v w => rfl, fun v w => rfl, fun v w => rfl, fun v w => rfl,
    fun v w => rfl, fun p q => rfl, fun p q => rfl, fun p q => rfl, ?_, ?_,
    fun v w v2 w2 => rfl⟩
  · intro l
    cases l with
    | eq v =>
      by_cases hv : v = Value.null
      · have h1 : countQ " IS NULL" = 0 := rfl
        simp [Leaf.build, Condition.eq, hv, countQ_append, hf, h1]
      · have h1 : countQ " = ?" = 1 := rfl
        simp [Leaf.build, Condition.eq, hv, countQ_append, hf, h1]
    | ne v =>
      have h1 : countQ " != ?" = 1 := rfl
      simp [Leaf.build, Condition.ne, countQ_append, hf, h1]
    | lt v =>
      have h1 : countQ " < ?" = 1 := rfl
      simp [Leaf.build, Condition.lt, countQ_append, hf, h1]
    | le v =>
      have h1 : countQ " <= ?" = 1 := rfl
      simp [Leaf.build, Condition.le, countQ_append, hf, h1]
    | gt v =>
      have h1 : countQ " > ?" = 1 := rfl
      simp [Leaf.build, Condition.gt, countQ_append, hf, h1]
    | ge v =>
      have h1 : countQ " >= ?" = 1 := rfl
      simp [Leaf.build, Condition.ge, countQ_append, hf, h1]
    | startswith p =>
      have h1 : countQ " LIKE ?" = 1 := rfl
      simp [Leaf.build, Condition.startswith, countQ_append, hf, h1]
    | endswith s =>
      have h1 : countQ " LIKE ?" = 1 := rfl
      simp [Leaf.build, Condition.endswith, countQ_append, hf, h1]
    | substring s =>
      have h1 : countQ " LIKE ?" = 1 := rfl
      simp [Leaf.build, Condition.substring, countQ_append, hf, h1]
    | anyof vs =>
      have h1 : countQ " IN (" = 0 := rfl
      have h2 : countQ ")" = 0 := rfl
      simp [Leaf.build, Condition.anyof, countQ_append, hf, countQ_joinSep_replicate, h1, h2]
    | noneof vs =>
      have h1 : countQ " NOT IN (" = 0 := rfl
      have h2 : countQ ")" = 0 := rfl
      simp [Leaf.build, Condition.noneof, countQ_append, hf, countQ_joinSep_replicate, h1, h2]
    | between a b =>
      have h1 : countQ " BETWEEN ? AND ?" = 2 := rfl
      simp [Leaf.build, Condition.between, countQ_append, hf, h1]
    | isnull =>
      have h1 : countQ " IS NULL" = 0 := rfl
      simp [Leaf.build, Condition.isnull, countQ_append, hf, h1]
    | notnull =>
      have h1 : countQ " IS NOT NULL" = 0 := rfl
      simp [Leaf.build, Condition.notnull, countQ_append, hf, h1]
  · intro v w hv hw
    simp [Condition.eq, hv, hw]
  · intro vs ws h
    simp [Condition.anyof, h]
  · intro vs ws h
    simp [Condition.noneof, h]

/-- C3 witness: at field `"name"` and the equality leaf on value `5`,
the clause has exactly one placeholder for the one bound value. -/
theorem C3_fractal_parameterized_witness :
    countQ "name" = 0 ∧
    countQ (Leaf.build "name" (Leaf.eq (Value.int 5))).clause
      = (Leaf.build "name" (Leaf.eq (Value.int 5))).values.length :=
  ⟨by decide, (C3_fractal_parameterized "name" (by decide)).1 (Leaf.eq (Value.int 5))⟩

/-- C9: `drop(confirm=False)` returns `False` and performs no engine
interaction at all; `drop(confirm=True)` executes
`DROP TABLE IF EXISTS <name>`, commits, and returns `True`. -/
theorem C9_drop_frame (name : String) :
    drop name false = (false, []) ∧
    drop name true =
      (true, [Effect.execute ("DROP TABLE IF EXISTS " ++ name) [], Effect.commit]) :=
  ⟨rfl, rfl⟩

/-- C10: `fetch` is total — when no row carries the key it returns the
empty map (both characterized by the engine returning no row and by no
row of the table having the key value), and when the engine returns a
row it returns the column-name-to-value map `zip columns row`. -/
theorem C10_fetch_total (t : TableState) (key : String) :
    ((∀ r ∈ t.rows, r.get? (t.columns.indexOf "key") ≠ some (Value.str key)) →
      fetch t key = []) ∧
    (fetchRow t key = none → fetch t key = []) ∧
    (∀ row, fetchRow t key = some row → fetch t key = t.columns.zip row) := by
  refine ⟨?_, ?_, ?_⟩
  · intro h
    have hn : fetchRow t key = none := by
      unfold fetchRow
      rw [List.find?_eq_none]
      intro r hr
      simpa using h r hr
    simp [fetch, hn]
  · intro h
    simp [fetch, h]
  · intro row h
    simp [fetch, h]

/-- C10 witness: on a concrete one-row table, the row with key `"k1"` is
found and `fetch` returns its column map. -/
theorem C10_fetch_total_witness :
    fetchRow ⟨["key", "name"], [[Value.str "k1", Value.str "alice"]]⟩ "k1"
        = some [Value.str "k1", Value.str "alice"] ∧
    fetch ⟨["key", "name"], [[Value.str "k1", Value.str "alice"]]⟩ "k1"
        = [("key", Value.str "k1"), ("name", Value.str "alice")] := by
  constructor
  · decide
  · rw [(C10_fetch_total ⟨["key", "name"], [[Value.str "k1", Value.str "alice"]]⟩ "k1").2.2
      [Value.str "k1", Value.str "alice"] (by decide)]
    decide

/-- The validation loop of `Table.insert` succeeds exactly when every
schema field is present in the data with a value of the declared storage
class. -/
theorem checkFields_eq_ok_iff (data : List (String × Value)) (fields : List Field) :
    checkFields data fields = Except.ok () ↔
      ∀ fl ∈ fields, ∃ v, data.lookup fl.name = some v ∧
        v.asTypeStr = fl.sql_type := by
  induction fields with
  | nil => simp [checkFields]
  | cons f rest ih =>
    cases hl : data.lookup f.name with
    | none =>
      simp only [checkFields, hl]
      constructor
      · intro h
        exact Except.noConfusion h
      · intro h
        obtain ⟨v, hv, _⟩ := h f (List.mem_cons_self f rest)
        rw [hl] at hv
        exact Option.noConfusion hv
    | some v =>
      simp only [checkFields, hl]
      by_cases ht : v.asTypeStr = f.sql_type
      · rw [if_neg (fun hn => hn ht), ih]
        constructor
        · intro h fl hfl
          rcases List.mem_cons.mp hfl with h1 | h2
          · subst h1
            exact ⟨v, hl, ht⟩
          · exact h fl h2
        · intro h fl hfl
          exact h fl (List.mem_cons_of_mem f hfl)
      · rw [if_pos ht]
        constructor
        · intro h
          exact Except.noConfusion h
        · intro h
          obtain ⟨w, hw, hts⟩ := h f (List.mem_cons_self f rest)
          rw [hl] at hw
          injection hw with hw'
          subst hw'
          exact absurd hts ht

/-- Every failure of the validation loop is a `ValueError` (missing
field) or a `TypeError` (wrong storage class). -/
theorem checkFields_error_shape (data : List (String × Value)) :
    ∀ (fields : List Field) (e : PyError), checkFields data fields = Except.error e →
      (∃ m, e = PyError.valueError m) ∨ (∃ m, e = PyError.typeError m) := by
  intro fields
  induction fields with
  | nil =>
    intro e h
    exact Except.noConfusion h
  | cons f rest ih =>
    intro e h
    cases hl : data.lookup f.name with
    | none =>
      simp only [checkFields, hl] at h
      injection h with h'
      exact Or.inl ⟨_, h'.symm⟩
    | some v =>
      simp only [checkFields, hl] at h
      by_cases ht : v.asTypeStr ≠ f.sql_type
      · rw [if_pos ht] at h
        injection h with h'
        exact Or.inr ⟨_, h'.symm⟩
      · rw [if_neg ht] at h
        exact ih e h

/-- C5 amended: `Table.insert` in `driz/table.py` raises `ValueError` on
a wrong field count, succeeds exactly when every schema field is present
with the declared storage class (executing the parameterized INSERT in
that case and only then), and every failure is a value error or a type
error. -/
theorem C5_insert_validation (name : String) (fields : List Field)
    (data : List (String × Value)) :
    (data.length ≠ fields.length →
      tableInsert name fields data =
        Except.error (PyError.valueError "Data length does not match schema fields length.")) ∧
    (∀ stmt, tableInsert name fields data = Except.ok stmt →
      data.length = fields.length ∧
      (∀ fl ∈ fields, ∃ v, data.lookup fl.name = some v ∧
        v.asTypeStr = fl.sql_type) ∧
      stmt = insertStmt name data) ∧
    (data.length = fields.length →
      (∀ fl ∈ fields, ∃ v, data.lookup fl.name = some v ∧
        v.asTypeStr = fl.sql_type) →
      tableInsert name fields data = Except.ok (insertStmt name data)) ∧
    (∀ e, tableInsert name fields data = Except.error e →
      (∃ m, e = PyError.valueError m) ∨ (∃ m, e = PyError.typeError m)) := by
  refine ⟨?_, ?_, ?_, ?_⟩
  · intro h
    simp [tableInsert, h]
  · intro stmt h
    simp only [tableInsert] at h
    by_cases hlen : data.length = fields.length
    · rw [if_neg (fun hn => hn hlen)] at h
      cases hc : checkFields data fields with
      | error e =>
        simp only [hc] at h
        exact Except.noConfusion h
      | ok u =>
        cases u
        simp only [hc] at h
        injection h with h'
        exact ⟨hlen, (checkFields_eq_ok_iff data fields).mp hc, h'.symm⟩
    · rw [if_pos hlen] at h
      exact Except.noConfusion h
  · intro hlen hvalid
    have hne : ¬data.length ≠ fields.length := fun hn => hn hlen
    simp only [tableInsert, (checkFields_eq_ok_iff data fields).mpr hvalid, if_neg hne]
  · intro e h
    simp only [tableInsert] at h
    by_cases hlen : data.length = fields.length
    · rw [if_neg (fun hn => hn hlen)] at h
      cases hc : checkFields data fields with
      | error e2 =>
        simp only [hc] at h
        injection h with h'
        subst h'
        exact checkFields_error_shape data fields e2 hc
      | ok u =>
        cases u
        simp only [hc] at h
        exact Except.noConfusion h
    · rw [if_pos hlen] at h
      injection h with h'
      exact Or.inl ⟨_, h'.symm⟩

/-- C5 witness: inserting a one-entry record against an empty schema
fails with the wrong-field-count `ValueError`. -/
theorem C5_insert_validation_witness :
    (([("x", Value.int 7)] : List (String × Value)).length ≠
        ([] : List Field).length) ∧
    tableInsert "t" [] [("x", Value.int 7)] =
      Except.error (PyError.valueError "Data length does not match schema fields length.") :=
  ⟨by decide, (C5_insert_validation "t" [] [("x", Value.int 7)]).1 (by decide)⟩

/-- C5 counterexample: `Collection.insert` in `fractal/collection.py`
performs no schema validation at all — inserting a record whose only
field `bogus` is unknown to the schema (whose fields are exactly `key`
and `timestamp`) raises nothing and executes the INSERT. -/
theorem C5_fractal_no_validation_counterexample :
    ((fractalSchemaInit []).map (fun p => p.1) = ["key", "timestamp"]) ∧
    fractalInsert "users" (Value.str "2025-01-01T00:00:00")
        [([("bogus", Value.int 1)], "deadbeef")] =
      [Effect.execute "INSERT INTO users (bogus, key, timestamp) VALUES (?, ?, ?)"
          [Value.int 1, Value.str "deadbeef", Value.str "2025-01-01T00:00:00"],
        Effect.commit] := by
  constructor
  · decide
  · decide

/-- A `None` lookup result means the key is absent from the dict. -/
theorem lookup_none_not_mem {α : Type} (d : List (String × α)) (k : String)
    (h : List.lookup k d = none) : k ∉ d.map (fun p => p.1) := by
  induction d with
  | nil => simp
  | cons a tl ih =>
    obtain ⟨ka, va⟩ := a
    simp only [List.lookup] at h
    cases hbeq : (k == ka) with
    | true =>
      rw [hbeq] at h
      exact Option.noConfusion h
    | false =>
      rw [hbeq] at h
      simp only [List.map_cons, List.mem_cons]
      rintro (h1 | h2)
      · rw [h1, beq_self_eq_true] at hbeq
        exact Bool.noConfusion hbeq
      · exact ih h h2

/-- Python dict assignment never duplicates a key: overwriting keeps the
key list unchanged, and a fresh key is appended once. -/
theorem dictSet_keys_nodup {α : Type} (d : List (String × α)) (k : String) (v : α)
    (h : (d.map (fun p => p.1)).Nodup) :
    ((dictSet d k v).map (fun p => p.1)).Nodup := by
  unfold dictSet
  split
  · have hkeys : ((d.map (fun pr => if pr.1 = k then (k, v) else pr)).map (fun p => p.1)) =
        d.map (fun p => p.1) := by
      rw [List.map_map]
      apply List.map_congr_left
      intro p _
      by_cases hp : p.1 = k
      · simp [hp]
      · simp [hp]
    rw [hkeys]
    exact h
  · rename_i hl
    simp only [List.map_append, List.map_cons, List.map_nil]
    refine List.Nodup.append h (List.nodup_singleton k) ?_
    intro a ha hb
    rw [List.mem_singleton] at hb
    subst hb
    exact lookup_none_not_mem d a (Option.not_isSome_iff_eq_none.mp hl) ha

/-- Folding dict assignments over any field list preserves key
uniqueness. -/
theorem foldl_dictSet_keys_nodup (user : List Field) :
    ∀ d : List (String × Field), (d.map (fun p => p.1)).Nodup →
      ((user.foldl (fun d f => dictSet d f.name f) d).map (fun p => p.1)).Nodup := by
  induction user with
  | nil => exact fun d h => h
  | cons f fs ih =>
    intro d h
    rw [List.foldl_cons]
    exact ih _ (dictSet_keys_nodup d f.name f h)

/-- Assigning a key other than `key`/`timestamp` leaves the two leading
implicit entries of the dict in place. -/
theorem dictSet_prefix2 (p t : Field) (rest : List (String × Field)) (k : String)
    (v : Field) (hk1 : k ≠ "key") (hk2 : k ≠ "timestamp") :
    ∃ rest', dictSet (("key", p) :: ("timestamp", t) :: rest) k v =
      ("key", p) :: ("timestamp", t) :: rest' := by
  have h1 : ("key" : String) ≠ k := Ne.symm hk1
  have h2 : ("timestamp" : String) ≠ k := Ne.symm hk2
  unfold dictSet
  split
  · exact ⟨rest.map (fun pr => if pr.1 = k then (k, v) else pr), by simp [h1, h2]⟩
  · exact ⟨rest ++ [(k, v)], by simp⟩

/-- Folding user-field assignments whose names avoid the implicit names
keeps `key` and `timestamp` as the first two entries. -/
theorem foldl_dictSet_prefix2 (user : List Field) :
    (∀ fl ∈ user, fl.name ≠ "key" ∧ fl.name ≠ "timestamp") →
    ∀ (p t : Field) (rest : List (String × Field)),
      ∃ rest', user.foldl (fun d f => dictSet d f.name f)
          (("key", p) :: ("timestamp", t) :: rest) =
        ("key", p) :: ("timestamp", t) :: rest' := by
  induction user with
  | nil => exact fun _ p t rest => ⟨rest, rfl⟩
  | cons f fs ih =>
    intro h p t rest
    obtain ⟨hf1, hf2⟩ := h f (List.mem_cons_self f fs)
    obtain ⟨rest', hr⟩ := dictSet_prefix2 p t rest f.name f hf1 hf2
    rw [List.foldl_cons, hr]
    exact ih (fun g hg => h g (List.mem_cons_of_mem f hg)) p t rest'

/-- C6 amended: the driz schema unconditionally begins with the implicit
TEXT PRIMARY KEY `key` field and DATETIME NOT NULL `timestamp` field
followed by the user fields; the fractal (dict-keyed) schema has them as
its first two entries provided no user field reuses the names `key` or
`timestamp`. -/
theorem C6_implicit_fields_amended :
    (∀ user : List Field,
      drizSchemaInit user =
        ({ name := "key", sql_type := "TEXT", constraints := "PRIMARY KEY " } : Field) ::
          ({ name := "timestamp", sql_type := "DATETIME", constraints := "NOT NULL " } : Field) ::
          user) ∧
    (∀ user : List Field,
      (∀ fl ∈ user, fl.name ≠ "key" ∧ fl.name ≠ "timestamp") →
      (fractalSchemaInit user).take 2 =
        [("key", primaryField), ("timestamp", timestampField)]) ∧
    primaryField = { name := "key", sql_type := "TEXT", constraints := "PRIMARY KEY " } ∧
    timestampField = { name := "timestamp", sql_type := "DATETIME", constraints := "NOT NULL " } := by
  refine ⟨fun user => rfl, ?_, rfl, rfl⟩
  intro user h
  obtain ⟨rest', hr⟩ := foldl_dictSet_prefix2 user h primaryField timestampField []
  unfold fractalSchemaInit
  rw [hr]
  rfl

/-- C6 witness: with one ordinary user field `age`, the fractal schema's
first two entries are the implicit fields. -/
theorem C6_implicit_fields_witness :
    (∀ fl ∈ [mkFieldFractal "age" PyType.int true none false none none none],
      fl.name ≠ "key" ∧ fl.name ≠ "timestamp") ∧
    (fractalSchemaInit [mkFieldFractal "age" PyType.int true none false none none none]).take 2 =
      [("key", primaryField), ("timestamp", timestampField)] :=
  ⟨by decide, C6_implicit_fields_amended.2.1 _ (by decide)⟩

/-- C6 counterexample: a user field named `key` silently replaces the
implicit primary-key field in the fractal dict-keyed schema, so the
resulting schema has no TEXT PRIMARY KEY `key` field. -/
theorem C6_user_key_counterexample :
    (fractalSchemaInit
        [mkFieldFractal "key" PyType.int true none false none none none]).lookup "key" =
      some (mkFieldFractal "key" PyType.int true none false none none none) ∧
    mkFieldFractal "key" PyType.int true none false none none none =
      ({ name := "key", sql_type := "INTEGER", constraints := "" } : Field) ∧
    (fractalSchemaInit
        [mkFieldFractal "key" PyType.int true none false none none none]).lookup "key" ≠
      some primaryField ∧
    primaryField.sql_type = "TEXT" ∧ primaryField.constraints = "PRIMARY KEY " := by
  refine ⟨by decide, by decide, by decide, rfl, rfl⟩

/-- C7 amended: in the fractal dict-keyed schema, field names are unique
after construction from any user fields and after any append; the driz
list-backed schema does not enforce this (see the counterexample). -/
theorem C7_fractal_unique_names :
    (∀ user : List Field, ((fractalSchemaInit user).map (fun p => p.1)).Nodup) ∧
    (∀ d : List (String × Field), (d.map (fun p => p.1)).Nodup →
      ∀ newFields : List Field,
        ((fractalSchemaAppend d newFields).map (fun p => p.1)).Nodup) := by
  constructor
  · intro user
    exact foldl_dictSet_keys_nodup user _ (by decide)
  · intro d h newFields
    exact foldl_dictSet_keys_nodup newFields d h

/-- C7 witness: appending one field to the empty dict keeps its keys
unique. -/
theorem C7_fractal_unique_names_witness :
    ((([] : List (String × Field)).map (fun p => p.1)).Nodup) ∧
    ((fractalSchemaAppend []
        [mkFieldFractal "a" PyType.int true none false none none none]).map
      (fun p => p.1)).Nodup :=
  ⟨by decide,
    C7_fractal_unique_names.2 [] (by decide)
      [mkFieldFractal "a" PyType.int true none false none none none]⟩

/-- C7 counterexample: the driz list-backed schema accepts a user field
named `key` and ends up with two fields of the same name. -/
theorem C7_driz_duplicate_counterexample :
    ((drizSchemaInit [mkFieldDriz "key" PyType.int true none false none none none]).map
        Field.name) = ["key", "timestamp", "key"] ∧
    ¬ ((drizSchemaInit [mkFieldDriz "key" PyType.int true none false none none none]).map
        Field.name).Nodup := by
  constructor
  · decide
  · decide
